import Mathlib

/-!
Shallow embedding of the OGC API "processes / jobs" route handlers
(`ogcapi-services/src/routes/processes.rs`, current axum implementation, with
the legacy tide implementation `src/server/routes/processes.rs` noted where it
differs).  Pure functions model each handler; the `meta.jobs` table is a list
of rows and the database is passed explicitly.  Machine integers in the
pagination logic are modelled as `Nat` with an explicit 64-bit complement
where the Rust bitwise `!` operator matters.
-/

namespace Ogcapi

/-- Job status enumeration (the `status` column / `StatusInfo.status` field).
The `StatusInfo` type lives in the `ogcapi_entities` crate, outside the route
sources; per the spec the status domain is `accepted`, `running`,
`successful`, `failed`, `dismissed`.  Modelled from the spec: the
`Default` for the status field is the initial state `accepted`
(spec §4.2: a Job is built "in status `accepted`"). -/
inductive StatusCode where
  | accepted
  | running
  | successful
  | failed
  | dismissed
  deriving DecidableEq, Repr

instance : BEq StatusCode := ⟨fun a b => decide (a = b)⟩

/-- Link relations used by the processes routes: `LinkRel::default()` is the
`self` relation; `LinkRel::Prev` / `LinkRel::Next` are the pagination
relations. -/
inductive LinkRel where
  | selfRel
  | prev
  | next
  deriving DecidableEq, Repr

instance : BEq LinkRel := ⟨fun a b => decide (a = b)⟩

/-- A navigation link: `Link::new(url, rel)`.  The mime type (always JSON
here) and optional title carry no information for the claims and are
omitted. -/
structure Link where
  href : String
  rel : LinkRel
  deriving DecidableEq, Repr

instance : BEq Link := ⟨fun a b => decide (a = b)⟩

/-- The `ProcessQuery` (legacy: `Query`) deserialized from the request query
string: optional `limit` and `offset`.  The struct itself lives in the
entities crate; the route code reads and rewrites exactly these two fields. -/
structure ProcessQuery where
  limit : Option Nat
  offset : Option Nat
  deriving DecidableEq, Repr

/-- `serde_qs::to_string(&query)` (legacy: `query.as_string_with_offset`):
the query string re-derived from the structured query object, `None` fields
skipped. -/
def ProcessQuery.serialize (q : ProcessQuery) : String :=
  String.intercalate "&"
    ((match q.limit with
      | some l => ["limit=" ++ toString l]
      | none => []) ++
     (match q.offset with
      | some o => ["offset=" ++ toString o]
      | none => []))

/-- `2 ^ 64 - 1`, the largest `u64`. -/
def u64Max : Nat := 18446744073709551615

/-- Rust's bitwise complement on a 64-bit integer, `!x`, as a function on
`Nat`: `!x = 2^64 - 1 - x` for an in-range unsigned `x` (a signed 64-bit
`!x = -x-1` cast `as u64` yields the same value for `0 ≤ x < 2^63`). -/
def bitnot64 (x : Nat) : Nat := u64Max - x % (u64Max + 1)

/-- Base URL of the process list resource: `format!("{}/processes", remote)`
parsed into `url` before any query is attached. -/
def processesUrl (remote : String) : String := remote ++ "/processes"

/-- The link-building part of the `processes` handler (GET /processes),
`routes/processes.rs` lines 37–72 (legacy lines 26–63).  `count` is
`rows_affected` of `SELECT id FROM meta.processes`, i.e. the total number of
catalogued processes.  Faithful points:
* the whole pagination block runs only when `query.limit` is `Some`;
* `query.offset.or(Some(0))` defaults the offset to 0;
* the `prev` link is pushed only when `offset != 0 && offset >= limit`, with
  the offset rewritten to `offset - limit`;
* the `next` condition is the source's `!(offset + limit) as u64 >= count`,
  in which Rust's bitwise `!` binds tighter than `as` and `>=`, so it
  compares the 64-bit complement of `offset + limit` against `count`. -/
def processesLinks (remote : String) (query : ProcessQuery) (count : Nat) :
    List Link :=
  let url := processesUrl remote
  let links := [Link.mk url LinkRel.selfRel]
  match query.limit with
  | none => links
  | some limit =>
    let offset := query.offset.getD 0
    let links :=
      if offset ≠ 0 ∧ offset ≥ limit then
        links ++ [Link.mk
          (url ++ "?" ++ ProcessQuery.serialize ⟨some limit, some (offset - limit)⟩)
          LinkRel.prev]
      else links
    if bitnot64 (offset + limit) ≥ count then
      links ++ [Link.mk
        (url ++ "?" ++ ProcessQuery.serialize ⟨some limit, some (offset + limit)⟩)
        LinkRel.next]
    else links

/-- First link of a given relation in a response's link list
(`links.iter().find(...)` on the serialized response). -/
def findLink (links : List Link) (r : LinkRel) : Option Link :=
  links.find? (fun l => l.rel == r)

/-- Opaque JSON result payload (`Results`, `sqlx::types::Json<Results>`);
its shape is process-defined and irrelevant here. -/
abbrev ResultsDoc := String

/-- Opaque execute-request body (`Json<Execute>` / `req.body_json()`); the
handlers parse it and never look inside. -/
abbrev ExecuteBody := String

/-- A row of the `meta.jobs` table.  The `execution` handler inserts
`(job_id, process_id, status, created)`; the `results` column is the
optional (NULL-able) stored result payload read by the `results` handler. -/
structure JobRow where
  job_id : String
  process_id : Option String
  status : StatusCode
  created : Option Nat
  results : Option ResultsDoc
  deriving DecidableEq, Repr

/-- The `meta.jobs` table: rows in insertion order. -/
abbrev Store := List JobRow

/-- The first row whose `job_id` matches, if any — used to state which rows
an operation leaves in the table. -/
def Store.lookup (s : Store) (id : String) : Option JobRow :=
  s.find? (fun r => r.job_id == id)

/-- The `StatusInfo` body serialized to the client by `execution` and
`status`.  It mirrors the job row minus the `results` column (the
`StatusInfo` struct has no results field, so `SELECT *` decodes without it),
plus computed navigation links. -/
structure StatusInfo where
  job_id : String
  process_id : Option String
  status : StatusCode
  created : Option Nat
  links : Option (List Link)
  deriving DecidableEq, Repr

/-- Errors a handler can propagate.  Modelled from the spec: the
error-to-HTTP mapping (`crate::Result` and the ogcapi error enum) is not
among the route sources; per the spec taxonomy an unknown id would surface
as `notFound` (404) and `resultsNotReady` is the conflict-class error for
results requested before success (no handler ever produces either, see
below).  `sqlSyntax` is the storage-class database error PostgreSQL raises
at prepare time for a statement containing the malformed placeholder `$id`
(placeholders are strictly positional — `$1`, `$2`, … — as the same file
writes in its delete and insert statements).  `nullDecode` is sqlx failing
to decode a NULL `results` column into a non-nullable `Json<Results>`;
`todoPanic` is the `todo!()` macro aborting the handler. -/
inductive ApiError where
  | notFound
  | resultsNotReady
  | sqlSyntax
  | nullDecode
  | todoPanic
  deriving DecidableEq, Repr

/-- An HTTP response as the handlers build it: status code, optional
`Location` header, body. -/
structure HttpResponse (α : Type) where
  code : Nat
  location : Option String
  body : α
  deriving DecidableEq, Repr

/-- The `execution` handler (POST /processes/:id/execution),
`routes/processes.rs` lines 116–149 (legacy lines 105–135).  Inputs the
handler draws from the environment are explicit: `prefer` is
`headers.get("Prefer")` (read into `_prefer` and never used), `body` the
parsed `Execute` payload (parsed into `_payload` and never used), `uuid` the
fresh `Uuid::new_v4()`, `now` the `Utc::now()` timestamp, `remote` the
configured base URL.  Faithful points:
* no validation of the process id against `meta.processes`
  (`// TODO: validation & execution`);
* the inserted row carries the default status (`accepted`) and no result;
* the response is `StatusCode::CREATED` (201) with a `Location` header
  `{remote}/jobs/{job_id}` (legacy: relative `jobs/{job_id}`) and the
  `StatusInfo` body. -/
def execution (processId : String) (prefer : Option String) (body : ExecuteBody)
    (uuid : String) (now : Nat) (remote : String) (store : Store) :
    HttpResponse StatusInfo × Store :=
  let _prefer := prefer
  let _payload := body
  let job : StatusInfo :=
    { job_id := uuid, process_id := some processId, status := StatusCode.accepted,
      created := some now, links := none }
  let row : JobRow :=
    { job_id := job.job_id, process_id := job.process_id, status := job.status,
      created := job.created, results := none }
  let store' := store ++ [row]
  ({ code := 201, location := some (remote ++ "/jobs/" ++ job.job_id), body := job },
   store')

/-- The `jobs` handler (GET /jobs), `routes/processes.rs` lines 151–153: its
whole body is `todo!()`, which panics unconditionally.  (The legacy handler,
lines 137–139, returns an empty 200 response with no body instead.) -/
def jobsHandler : Except ApiError Unit := Except.error ApiError.todoPanic

/-- `fetch_one` of a statement against `meta.jobs` whose text contains the
malformed `$id` placeholder (`... WHERE job_id = $id` plus `.bind(id)`, as
written in the `status` and `results` handlers).  PostgreSQL placeholders
are strictly positional (`$1`, `$2`, …); sqlx sends the statement text
verbatim, so preparation fails with a database syntax error on every call —
the bound id and the table's rows are never consulted. -/
def fetchOneByDollarId (_store : Store) (_id : String) : Except ApiError JobRow :=
  Except.error ApiError.sqlSyntax

/-- The `status` handler (GET /jobs/:id), `routes/processes.rs` lines
155–170 (legacy lines 141–156): it runs
`sqlx::query_as("SELECT * FROM meta.jobs WHERE job_id = $id").bind(id)`
with `fetch_one` — the malformed `$id` placeholder makes the query fail at
prepare time, and the error propagates through `?`.  Had a row been
returned, a `self` link to the request URL would be attached and the
`StatusInfo` returned as a 200 JSON body (that branch is unreachable). -/
def statusOp (url : String) (id : String) (store : Store) :
    Except ApiError StatusInfo :=
  match fetchOneByDollarId store id with
  | Except.error e => Except.error e
  | Except.ok r =>
      Except.ok
        { job_id := r.job_id, process_id := r.process_id, status := r.status,
          created := r.created, links := some [Link.mk url LinkRel.selfRel] }

/-- The `delete` handler (DELETE /jobs/:id), `routes/processes.rs` lines
172–181 (legacy lines 158–168): `DELETE FROM meta.jobs WHERE job_id = $1`,
result row count never inspected, then `StatusCode::NO_CONTENT` (204)
unconditionally. -/
def deleteJob (id : String) (store : Store) : Nat × Store :=
  (204, store.filter (fun r => r.job_id != id))

/-- The `results` handler (GET /jobs/:id/results; legacy route
/jobs/:id/result), `routes/processes.rs` lines 183–194 (legacy lines
170–182): it runs
`sqlx::query_as("SELECT results FROM meta.jobs WHERE job_id = $id")` with
`.bind(id)` and `fetch_one` — the same malformed `$id` placeholder, so the
query fails at prepare time and the error propagates through `?`.  Had the
statement prepared, the single selected column would be decoded into a
non-nullable `(Json<Results>,)` — a NULL column (no stored result) being a
decode error — and a stored payload returned verbatim as a 200 JSON body;
both branches are unreachable, and the job's status is never consulted in
any case. -/
def resultsOp (id : String) (store : Store) : Except ApiError ResultsDoc :=
  match fetchOneByDollarId store id with
  | Except.error e => Except.error e
  | Except.ok r =>
      match r.results with
      | none => Except.error ApiError.nullDecode
      | some doc => Except.ok doc

/-- A single externally triggered mutation of the `meta.jobs` table: a
submit (`execution`) or a dismiss (`delete`).  `status`, `results` and
`jobs` never write. -/
inductive Step : Store → Store → Prop where
  | exec (s : Store) (processId : String) (prefer : Option String)
      (body : ExecuteBody) (uuid : String) (now : Nat) (remote : String) :
      Step s (execution processId prefer body uuid now remote s).2
  | dismiss (s : Store) (id : String) : Step s (deleteJob id s).2

/-- Stores reachable from the empty table through the implemented
operations. -/
inductive Reachable : Store → Prop where
  | init : Reachable []
  | step {s s' : Store} : Reachable s → Step s s' → Reachable s'

/-- Decidable form of the spec invariant "a result payload is present iff
status is `successful`", over every row of the table. -/
def storeInv (s : Store) : Bool :=
  s.all (fun r => r.results.isSome == (r.status == StatusCode.successful))

/-- The catalog of known process identifiers (the `meta.processes` table),
as far as job submission could consult it — which it never does. -/
abbrev ProcessRegistry := List String

/-- Sample rows for concrete instantiations. -/
def rowA : JobRow := ⟨"a", some "p", StatusCode.accepted, some 0, none⟩

def rowB : JobRow := ⟨"b", some "p", StatusCode.running, some 1, none⟩

def rowS : JobRow := ⟨"s", some "p", StatusCode.successful, some 3, some "doc"⟩

/-- C2: evaluation at the failing input: total count 5, `limit=10`,
`offset=0`.  Although `offset + limit < count` fails (the page already
covers the whole listing), the response still carries a `next` link with
offset 10: the source's `!(offset + limit) as u64 >= count` applies Rust's
bitwise complement to `offset + limit` before the comparison, so the
condition is satisfied by virtually every count. -/
theorem next_link_present_despite_page_end :
    findLink (processesLinks "http://x" ⟨some 10, some 0⟩ 5) LinkRel.next =
      some ⟨"http://x/processes?limit=10&offset=10", LinkRel.next⟩ ∧
    ¬ (0 + 10 < 5) := by
  exact ⟨rfl, by decide⟩

/-- C3 counterexample: `limit=10`, `offset=5`, count 100.  The offset is
positive, yet the response carries no `prev` link, because the handler
requires `offset >= limit` rather than clamping `offset - limit` at zero. -/
theorem prev_link_absent_for_small_offset :
    findLink (processesLinks "http://x" ⟨some 10, some 5⟩ 100) LinkRel.prev = none ∧
    (5 : Nat) > 0 := by
  exact ⟨rfl, by decide⟩

/-- C3 amended: with page size `limit` and offset `offset` given, the
response carries a `prev` link iff `offset > 0` and `offset ≥ limit`, and
that link's offset is `offset - limit`; when `0 < offset < limit` the link
is omitted entirely instead of being clamped at zero. -/
theorem prev_link_contract (remote : String) (limit offset count : Nat) :
    findLink (processesLinks remote ⟨some limit, some offset⟩ count) LinkRel.prev =
      (if offset ≠ 0 ∧ offset ≥ limit then
        some ⟨processesUrl remote ++ "?" ++
          ProcessQuery.serialize ⟨some limit, some (offset - limit)⟩, LinkRel.prev⟩
      else none) := by
  simp only [processesLinks, findLink, Option.getD]
  split_ifs <;> rfl

/-- C4 counterexample: a concrete successful submit responds with HTTP 201,
not 202: the handler returns `StatusCode::CREATED` (legacy:
`Response::builder(201)`). -/
theorem execution_returns_201_not_202 :
    (execution "echo" none "eb" "u1" 7 "http://x" []).1.code = 201 ∧
    (201 : Nat) ≠ 202 := by
  exact ⟨rfl, by decide⟩

/-- C4 amended: every successful submit responds 201 Created (not 202
Accepted), carries a `Location` header `{remote}/jobs/{job_id}` for the
freshly created job, its body is the initial Job status (the new id, the
target process id, status `accepted`, the creation timestamp), and exactly
that job row is appended to the table. -/
theorem execution_response_contract (processId : String) (prefer : Option String)
    (body : ExecuteBody) (uuid : String) (now : Nat) (remote : String)
    (store : Store) :
    (execution processId prefer body uuid now remote store).1.code = 201 ∧
    (execution processId prefer body uuid now remote store).1.location =
      some (remote ++ "/jobs/" ++ uuid) ∧
    (execution processId prefer body uuid now remote store).1.body =
      ⟨uuid, some processId, StatusCode.accepted, some now, none⟩ ∧
    (execution processId prefer body uuid now remote store).2 =
      store ++ [⟨uuid, some processId, StatusCode.accepted, some now, none⟩] := by
  exact ⟨rfl, rfl, rfl, rfl⟩

/-- C5: evaluation at the failing input: submitting for process id "ghost"
while the process catalog is empty still inserts a job row and responds 201.
The handler never consults the catalog (`// TODO: validation & execution`),
so no NotFound is produced and a job record is created for an unknown
process identifier. -/
theorem execution_inserts_job_for_unknown_process :
    ("ghost" ∉ ([] : ProcessRegistry)) ∧
    (execution "ghost" none "eb" "u1" 0 "http://x" []).1.code = 201 ∧
    (execution "ghost" none "eb" "u1" 0 "http://x" []).2 =
      [⟨"u1", some "ghost", StatusCode.accepted, some 0, none⟩] := by
  exact ⟨by decide, rfl, rfl⟩

/-- C6 counterexample: DELETE on an empty table (id never existed) responds
204, not 404: the handler never inspects the deleted row count. -/
theorem delete_unknown_job_returns_204 :
    (deleteJob "x" ([] : Store)).1 = 204 ∧ (204 : Nat) ≠ 404 := by
  exact ⟨rfl, by decide⟩

/-- C6 amended: DELETE /jobs/:id responds 204 unconditionally — also when
no job with that id exists (it never fails with NotFound); any row carrying
the id is removed and every other row is kept. -/
theorem delete_contract (id : String) (store : Store) :
    (deleteJob id store).1 = 204 ∧
    Store.lookup (deleteJob id store).2 id = none ∧
    ∀ r ∈ store, r.job_id ≠ id → r ∈ (deleteJob id store).2 := by
  refine ⟨rfl, ?_, ?_⟩
  · simp [deleteJob, Store.lookup, List.find?_eq_none, List.mem_filter]
  · intro r hr hne
    simp [deleteJob, List.mem_filter, hr, hne]

/-- C6 witness: deleting job "a" keeps the unrelated job "b". -/
theorem delete_contract_witness : rowB ∈ (deleteJob "a" [rowA, rowB]).2 :=
  (delete_contract "a" [rowA, rowB]).2.2 rowB (by decide) (by decide)

/-- C7: GET /jobs/{id} can never return the job's status: the query text
`SELECT * FROM meta.jobs WHERE job_id = $id` uses the invalid placeholder
`$id` (PostgreSQL placeholders are positional — the same file writes `$1`
in its delete and insert statements), so preparation fails and every
request propagates a storage-class database syntax error — here evaluated
for the existing job "a", where the claim promises a 200 Job body, and
equally for every url, id and table state, so the NotFound path for an
unknown id is unreachable too. -/
theorem status_fails_with_syntax_error :
    (statusOp "http://x/jobs/a" "a" [rowA] = Except.error ApiError.sqlSyntax ∧
      rowA.job_id = "a") ∧
    ∀ url id store, statusOp url id store = Except.error ApiError.sqlSyntax := by
  exact ⟨⟨rfl, rfl⟩, fun _ _ _ => rfl⟩

/-- C8: GET /jobs never returns a job listing: the current handler's whole
body is `todo!()`, which panics on every request (and the legacy handler
returns an empty 200 response without any body). -/
theorem jobs_handler_panics : jobsHandler = Except.error ApiError.todoPanic := rfl

/-- C1: get-results can never return the stored payload: its query text
`SELECT results FROM meta.jobs WHERE job_id = $id` carries the same invalid
`$id` placeholder, so the statement fails at prepare time and every request
propagates a storage-class database syntax error — here evaluated for the
`successful` job "s" with stored payload "doc", where the claim promises the
payload verbatim, and equally for every id and table state, so neither the
NotFound path for an unknown id nor any ResultsNotReady conflict is ever
produced (the handler contains no status check in any case). -/
theorem results_fail_with_syntax_error :
    (resultsOp "s" [rowS] = Except.error ApiError.sqlSyntax ∧
      rowS.status = StatusCode.successful ∧ rowS.results = some "doc") ∧
    ∀ id store, resultsOp id store = Except.error ApiError.sqlSyntax := by
  exact ⟨⟨rfl, rfl, rfl⟩, fun _ _ => rfl⟩

/-- C9: every store reachable from the empty table through the implemented
mutating operations (submit, dismiss) satisfies the invariant "result
payload present iff status is `successful`" on all of its rows — every
inserted row has status `accepted` and no result, and deletion only removes
rows. -/
theorem reachable_store_invariant (s : Store) (h : Reachable s) :
    storeInv s = true := by
  induction h with
  | init => rfl
  | step _ hs ih =>
      cases hs with
      | exec pid prefer body uuid now remote =>
          simpa [storeInv, execution, List.all_append] using ih
      | dismiss id =>
          simp only [storeInv, deleteJob, List.all_eq_true] at ih ⊢
          intro r hr
          exact ih r (List.mem_of_mem_filter hr)

/-- C9 witness: the store after one concrete submit satisfies the
invariant. -/
theorem reachable_store_invariant_witness :
    storeInv (execution "echo" none "eb" "u1" 7 "http://x" []).2 = true :=
  reachable_store_invariant _
    (Reachable.step Reachable.init (Step.exec [] "echo" none "eb" "u1" 7 "http://x"))

/-- C10: the Prefer header has no influence on submit: two requests
identical except for the presence or value of the Prefer header produce the
same response (status code, Location header, body) and the same inserted
job record — the handler reads the header into `_prefer` and never uses
it. -/
theorem execution_ignores_prefer_header (processId : String)
    (p1 p2 : Option String) (body : ExecuteBody) (uuid : String) (now : Nat)
    (remote : String) (store : Store) :
    execution processId p1 body uuid now remote store =
      execution processId p2 body uuid now remote store := rfl

end Ogcapi
